import Mathlib

/-
Verification of the inertial dead-reckoning pipeline in src/app.py
(Streamlit accelerometer tracker).

Modelling conventions:
* Python floats are modelled exactly as rationals, extended with an explicit
  NaN value (type PF below), because the ingestion path can feed NaN into the
  filter and integrator.  Arithmetic on PF propagates NaN like IEEE floats do;
  ordered comparisons involving NaN are false, matching Python semantics.
  The only division that occurs divides by quantities that are provably
  nonzero in every reachable state, so rational division is used directly.
* The Streamlit script re-executes from the top on every interaction.  All
  persistent state lives in st.session_state (is_running, positions, velocity,
  accel_data, last_ts); the two KalmanFilter objects are rebuilt from scratch
  on every run.  One execution of the script is modelled by scriptRun below:
  button handling, then (at most one) sample ingestion guarded by is_running.
* The sensor query parameter is modelled as an optional raw input which is
  either unparseable JSON or a record of optional raw field values; a missing
  field is read with default 0.0, a present non-numeric field makes float()
  raise, and a NaN literal converts to NaN.  Any exception inside the try
  block is caught and surfaced as a warning with session state untouched
  (all session-state writes occur after every fallible operation).
-/

/-- Python float value: an exact rational or NaN. -/
inductive PF where
  | fin (q : ℚ)
  | nan
deriving DecidableEq, Repr

def PF.add : PF → PF → PF
  | .fin a, .fin b => .fin (a + b)
  | _, _ => .nan

def PF.sub : PF → PF → PF
  | .fin a, .fin b => .fin (a - b)
  | _, _ => .nan

def PF.mul : PF → PF → PF
  | .fin a, .fin b => .fin (a * b)
  | _, _ => .nan

/-- Division; the divisor is nonzero at every reachable call site
(the filter divides by P + R with P > 0, R > 0, and dt divides by 1000),
so plain rational division is faithful there. -/
def PF.div : PF → PF → PF
  | .fin a, .fin b => .fin (a / b)
  | _, _ => .nan

/-- Strict comparison as Python evaluates it: any comparison with NaN is false. -/
def PF.lt : PF → PF → Bool
  | .fin a, .fin b => decide (a < b)
  | _, _ => false

/-- Python max(a, b): returns b when b > a, else a. -/
def PF.pymax (a b : PF) : PF :=
  if PF.lt a b then b else a

/-- Python truthiness of a float: 0.0 is falsy, every other float
(including NaN) is truthy. -/
def PF.truthy : PF → Bool
  | .fin q => decide (q ≠ 0)
  | .nan => true

def PF.toRat : PF → ℚ
  | .fin q => q
  | .nan => 0

def PF.isPos : PF → Bool
  | .fin q => decide (0 < q)
  | .nan => false

/-- class KalmanFilter (src/app.py lines 56-70).  Fields keep the source
names: x (estimate), P (covariance), Q (process variance), R (measurement
variance). -/
structure KalmanFilter where
  x : PF
  P : PF
  Q : PF
  R : PF
deriving DecidableEq, Repr

/-- KalmanFilter.update (src/app.py lines 63-70): prediction P += Q, gain
K = P / (P + R), correction x += K (m - x), shrink P *= (1 - K); returns
the updated filter together with the returned estimate. -/
def KalmanFilter.update (f : KalmanFilter) (measurement : PF) : KalmanFilter × PF :=
  let P1 := f.P.add f.Q
  let K := P1.div (P1.add f.R)
  let x1 := f.x.add (K.mul (measurement.sub f.x))
  let P2 := P1.mul ((PF.fin 1).sub K)
  (⟨x1, P2, f.Q, f.R⟩, x1)

/-- KalmanFilter() with the default tuning process_variance=1e-3,
measurement_variance=1e-2 (src/app.py line 57): x = 0.0, P = 1.0. -/
def KalmanFilter.init : KalmanFilter :=
  ⟨.fin 0, .fin 1, .fin (1/1000), .fin (1/100)⟩

/-- n repeated updates of one freshly initialized filter with a constant
measurement. -/
def KalmanFilter.iterate (m : PF) : ℕ → KalmanFilter
  | 0 => KalmanFilter.init
  | n + 1 => ((KalmanFilter.iterate m n).update m).1

/-- Folding an arbitrary measurement list through one filter instance. -/
def KalmanFilter.runUpdates (f : KalmanFilter) (ms : List PF) : KalmanFilter :=
  ms.foldl (fun g m => (g.update m).1) f

/-- Rational shadow of one covariance step of KalmanFilter.update
(measurement-independent): p becomes (p+Q) * (1 - (p+Q)/((p+Q)+R)). -/
def covStep (p : ℚ) : ℚ :=
  (p + 1/1000) * (1 - (p + 1/1000) / ((p + 1/1000) + 1/100))

/-- Rational shadow of the covariance sequence from the default P = 1. -/
def covSeq : ℕ → ℚ
  | 0 => 1
  | n + 1 => covStep (covSeq n)

/-- Rational shadow of the gain used at step n+1. -/
def gainSeq (n : ℕ) : ℚ :=
  (covSeq n + 1/1000) / ((covSeq n + 1/1000) + 1/100)

/-- Rational shadow of the estimate sequence under constant measurement m. -/
def estSeq (m : ℚ) : ℕ → ℚ
  | 0 => 0
  | n + 1 => estSeq m n + gainSeq n * (m - estSeq m n)

/-- Motion phase shown to the user (src/app.py lines 156-164). -/
inductive Phase where
  | accelerating
  | braking
  | stable
deriving DecidableEq, Repr

open Classical in
/-- Phase classification (src/app.py lines 156-163):
magnitude = sqrt(ax^2 + ay^2 + az^2); magnitude > 1.5 is accelerating,
magnitude < 0.5 is braking, otherwise stable. -/
noncomputable def classify (ax ay az : ℝ) : Phase :=
  let magnitude := Real.sqrt (ax ^ 2 + ay ^ 2 + az ^ 2)
  if magnitude > 1.5 then Phase.accelerating
  else if magnitude < 0.5 then Phase.braking
  else Phase.stable

/-- Euler integration block (src/app.py lines 134-145): velocity is advanced
by acceleration * dt first, position then moves by the new velocity * dt. -/
def advance (pos vel acc : PF × PF) (dt : PF) : (PF × PF) × (PF × PF) :=
  let vx := vel.1.add (acc.1.mul dt)
  let vy := vel.2.add (acc.2.mul dt)
  let x := pos.1.add (vx.mul dt)
  let y := pos.2.add (vy.mul dt)
  ((x, y), (vx, vy))

/-- deque(maxlen=1000) append (src/app.py lines 27 and 148): when the deque
is full the oldest (leftmost) element is evicted.  The list is oldest-first. -/
def dequeAppend (l : List (PF × PF)) (p : PF × PF) : List (PF × PF) :=
  if l.length < 1000 then l ++ [p] else l.tail ++ [p]

/-- Operations available on the trajectory log: append (ingestion) and
clear (the Reset handler, src/app.py line 47). -/
inductive LogOp where
  | append (p : PF × PF)
  | clear

def applyOp (l : List (PF × PF)) : LogOp → List (PF × PF)
  | .append p => dequeAppend l p
  | .clear => []

def applyOps (ops : List LogOp) : List (PF × PF) :=
  ops.foldl applyOp []

/-- A raw JSON field value: a finite number, a NaN literal (json.loads and
float() both accept it, yielding float NaN), or a non-numeric value on which
float() raises. -/
inductive RawVal where
  | num (q : ℚ)
  | nanLit
  | notNum
deriving DecidableEq, Repr

/-- The parsed sensor payload; none means the field is absent
(read with default 0.0 at src/app.py lines 120-123). -/
structure RawSample where
  accX : Option RawVal
  accY : Option RawVal
  accZ : Option RawVal
  ts : Option RawVal
deriving DecidableEq, Repr

/-- Convenience constructor for samples whose present fields are all numeric. -/
def numSample (a b c t : Option ℚ) : RawSample :=
  ⟨a.map .num, b.map .num, c.map .num, t.map .num⟩

/-- The sensor query parameter value when present: either a string json.loads
(or the subsequent attribute accesses) rejects, or a parsed sample. -/
inductive RawInput where
  | badJson
  | sample (sm : RawSample)
deriving DecidableEq, Repr

/-- float(data.get(..., 0.0)): a missing field defaults to 0.0, a numeric
field converts, the NaN literal converts to NaN, and a non-numeric field
makes float() raise (modelled as none). -/
def parseField : Option RawVal → Option PF
  | none => some (.fin 0)
  | some (.num q) => some (.fin q)
  | some .nanLit => some .nan
  | some .notNum => none

/-- dt computation (src/app.py lines 130-131):
dt = max(0.01, (ts - last_ts) / 1000.0) if last_ts else 0.05.
Note the Python truthiness test: last_ts = None and last_ts = 0.0 both take
the 0.05 fallback. -/
def computeDt (last_ts : Option PF) (ts : PF) : PF :=
  match last_ts with
  | some l =>
      if PF.truthy l then PF.pymax (.fin (1/100)) ((ts.sub l).div (.fin 1000))
      else .fin (1/20)
  | none => .fin (1/20)

/-- st.session_state (src/app.py lines 23-36). -/
structure AppState where
  is_running : Bool
  positions : List (PF × PF)
  velocity : PF × PF
  accel_data : PF × PF × PF
  last_ts : Option PF
deriving DecidableEq, Repr

/-- Initial session state (src/app.py lines 23-36). -/
def initialState : AppState :=
  ⟨false, [], (.fin 0, .fin 0), (.fin 0, .fin 0, .fin 0), none⟩

/-- The state produced by the Reset handler (src/app.py lines 46-51). -/
def resetState : AppState :=
  ⟨false, [], (.fin 0, .fin 0), (.fin 0, .fin 0, .fin 0), none⟩

/-- A freshly started tracker: initial state with is_running = true. -/
def startedState : AppState :=
  ⟨true, [], (.fin 0, .fin 0), (.fin 0, .fin 0, .fin 0), none⟩

/-- The ingestion try/except block (src/app.py lines 118-151).  All float()
conversions happen before any session-state write, so an exception leaves
the state untouched and st.warning fires (the returned Bool).  The Kalman
filters are the module-level kalman_x / kalman_y objects, freshly
constructed on this script run (src/app.py lines 72-73), hence
KalmanFilter.init. -/
def ingest (s : AppState) (r : RawInput) : AppState × Bool :=
  match r with
  | .badJson => (s, true)
  | .sample sm =>
    match parseField sm.accX, parseField sm.accY, parseField sm.accZ, parseField sm.ts with
    | some ax, some ay, some az, some ts =>
        let axf := (KalmanFilter.init.update ax).2
        let ayf := (KalmanFilter.init.update ay).2
        let dt := computeDt s.last_ts ts
        let prev := (s.positions.getLast?).getD (.fin 0, .fin 0)
        let step := advance prev s.velocity (axf, ayf) dt
        ({ s with velocity := step.2,
                  positions := dequeAppend s.positions step.1,
                  accel_data := (axf, ayf, az),
                  last_ts := some ts }, false)
    | _, _, _, _ => (s, true)

/-- Which of the three buttons report being pressed on this script run
(src/app.py lines 42-51). -/
structure Buttons where
  start : Bool
  stop : Bool
  reset : Bool
deriving DecidableEq, Repr

/-- One full execution of the script: button handlers in source order
(Start, Stop, Reset), then the ingestion block guarded by
st.session_state.is_running and a truthy sensor parameter
(src/app.py line 117).  Returns the new session state and whether
st.warning fired. -/
def scriptRun (s : AppState) (b : Buttons) (sensor : Option RawInput) : AppState × Bool :=
  let s1 := if b.start then { s with is_running := true } else s
  let s2 := if b.stop then { s1 with is_running := false } else s1
  let s3 := if b.reset then
      { s2 with positions := [], velocity := (.fin 0, .fin 0),
                accel_data := (.fin 0, .fin 0, .fin 0), last_ts := none,
                is_running := false }
    else s2
  match sensor with
  | some r => if s3.is_running then ingest s3 r else (s3, false)
  | none => (s3, false)

/-- The displayed phase (src/app.py lines 156-164), computed from
accel_data.  When a component is NaN the magnitude is NaN, both strict
comparisons are false in Python, and the stable branch is taken. -/
noncomputable def currentPhase (s : AppState) : Phase :=
  match s.accel_data with
  | (.fin a, .fin b, .fin c) => classify (a : ℝ) (b : ℝ) (c : ℝ)
  | _ => Phase.stable

/-- The end-to-end scenario of claim C9: fresh tracker, Start pressed, then
the three samples ax=2, ay=0, az=0 with ts = 0, 50, 100, one per script run. -/
def endState : AppState :=
  let s1 := (scriptRun initialState ⟨true, false, false⟩ none).1
  let s2 := (scriptRun s1 ⟨false, false, false⟩
      (some (.sample (numSample (some 2) (some 0) (some 0) (some 0))))).1
  let s3 := (scriptRun s2 ⟨false, false, false⟩
      (some (.sample (numSample (some 2) (some 0) (some 0) (some 50))))).1
  (scriptRun s3 ⟨false, false, false⟩
      (some (.sample (numSample (some 2) (some 0) (some 0) (some 100))))).1

/-- Reachable state used by the C2 counterexample: running, previous sample
carried ts = 1000. -/
def cState : AppState :=
  ⟨true, [], (.fin 0, .fin 0), (.fin 0, .fin 0, .fin 0), some (.fin 1000)⟩

/-! ### Helper lemmas -/

theorem pymax_fin (a b : ℚ) : PF.pymax (.fin a) (.fin b) = .fin (max a b) := by
  by_cases h : a < b
  · simp [PF.pymax, PF.lt, h, max_eq_right (le_of_lt h)]
  · simp [PF.pymax, PF.lt, h, max_eq_left (not_lt.mp h)]

theorem covSeq_succ (n : ℕ) : covSeq (n + 1) = covStep (covSeq n) := rfl

theorem covSeq_pos (n : ℕ) : 0 < covSeq n := by
  induction n with
  | zero => norm_num [covSeq]
  | succ n ih =>
      rw [covSeq_succ, covStep]
      have h2 : (0:ℚ) < (covSeq n + 1/1000) + 1/100 := by linarith
      have h3 : (covSeq n + 1/1000) / ((covSeq n + 1/1000) + 1/100) < 1 := by
        rw [div_lt_one h2]; linarith
      have h1 : (0:ℚ) < covSeq n + 1/1000 := by linarith
      exact mul_pos h1 (by linarith)

theorem covStep_eq (p : ℚ) (hp : 0 < p) :
    covStep p = (p + 1/1000) * (1/100) / ((p + 1/1000) + 1/100) := by
  have h2 : ((p + 1/1000) + 1/100 : ℚ) ≠ 0 := by positivity
  rw [covStep]
  field_simp
  ring

theorem covStep_mono (a b : ℚ) (ha : 0 < a) (hab : a ≤ b) : covStep a ≤ covStep b := by
  have hb : 0 < b := lt_of_lt_of_le ha hab
  rw [covStep_eq a ha, covStep_eq b hb]
  have hda : (0:ℚ) < (a + 1/1000) + 1/100 := by linarith
  have hdb : (0:ℚ) < (b + 1/1000) + 1/100 := by linarith
  rw [div_le_div_iff₀ hda hdb]
  nlinarith

theorem covSeq_lower_bound (n : ℕ) : 1/400 < covSeq n := by
  induction n with
  | zero => norm_num [covSeq]
  | succ n ih =>
      rw [covSeq_succ, covStep_eq (covSeq n) (covSeq_pos n)]
      rw [lt_div_iff₀ (by have := covSeq_pos n; linarith)]
      linarith

theorem covSeq_antitone (n : ℕ) : covSeq (n + 1) ≤ covSeq n := by
  induction n with
  | zero => norm_num [covSeq, covStep]
  | succ n ih =>
      rw [covSeq_succ (n+1)]
      calc covStep (covSeq (n + 1)) ≤ covStep (covSeq n) :=
            covStep_mono _ _ (covSeq_pos (n+1)) ih
        _ = covSeq (n + 1) := (covSeq_succ n).symm

theorem gainSeq_pos (n : ℕ) : 0 < gainSeq n := by
  have h := covSeq_pos n
  rw [gainSeq]
  positivity

theorem gainSeq_lt_one (n : ℕ) : gainSeq n < 1 := by
  have h := covSeq_pos n
  rw [gainSeq, div_lt_one (by linarith)]
  linarith

theorem err_step (m : ℚ) (n : ℕ) :
    m - estSeq m (n + 1) = (m - estSeq m n) * (1 - gainSeq n) := by
  rw [estSeq]
  ring

theorem estSeq_zero (n : ℕ) : estSeq 0 n = 0 := by
  induction n with
  | zero => rfl
  | succ n ih => rw [estSeq, ih]; ring

theorem iterate_fin (m : ℚ) (n : ℕ) :
    KalmanFilter.iterate (.fin m) n
      = ⟨.fin (estSeq m n), .fin (covSeq n), .fin (1/1000), .fin (1/100)⟩ := by
  induction n with
  | zero => rfl
  | succ n ih =>
      rw [KalmanFilter.iterate, ih]
      simp [KalmanFilter.update, PF.add, PF.div, PF.mul, PF.sub,
            covSeq_succ, covStep, estSeq, gainSeq]

theorem update_good (f : KalmanFilter) (m : PF)
    (hQ : f.Q = .fin (1/1000)) (hR : f.R = .fin (1/100))
    (hP : ∃ p : ℚ, f.P = .fin p ∧ 0 < p) :
    (f.update m).1.Q = .fin (1/1000) ∧ (f.update m).1.R = .fin (1/100)
      ∧ ∃ p : ℚ, (f.update m).1.P = .fin p ∧ 0 < p := by
  obtain ⟨p, hp, hp0⟩ := hP
  refine ⟨by simp [KalmanFilter.update, hQ], by simp [KalmanFilter.update, hR], ?_⟩
  refine ⟨(p + 1/1000) * (1 - (p + 1/1000) / ((p + 1/1000) + 1/100)), ?_, ?_⟩
  · simp [KalmanFilter.update, hp, hQ, hR, PF.add, PF.div, PF.mul, PF.sub]
  · have h1 : (0:ℚ) < p + 1/1000 := by linarith
    have h2 : (0:ℚ) < (p + 1/1000) + 1/100 := by linarith
    have h3 : (p + 1/1000) / ((p + 1/1000) + 1/100) < 1 := by
      rw [div_lt_one h2]; linarith
    exact mul_pos h1 (by linarith)

theorem runUpdates_good (ms : List PF) : ∀ f : KalmanFilter,
    f.Q = .fin (1/1000) → f.R = .fin (1/100) → (∃ p : ℚ, f.P = .fin p ∧ 0 < p) →
    ∃ p : ℚ, (f.runUpdates ms).P = .fin p ∧ 0 < p := by
  induction ms with
  | nil =>
      intro f _ _ hP
      simpa [KalmanFilter.runUpdates] using hP
  | cons m ms ih =>
      intro f hQ hR hP
      have h := update_good f m hQ hR hP
      exact ih (f.update m).1 h.1 h.2.1 h.2.2

/-! ### Claim C4 -/

/-- Claim C4 is refuted at the constant measurement m = 0: a freshly
initialized filter returns exactly 0 forever, so the absolute error is
constantly 0 and is not strictly decreasing. -/
theorem kalman_error_not_strictly_decreasing :
    ¬ (|(0:ℚ) - ((KalmanFilter.iterate (.fin 0) 2).x).toRat|
        < |(0:ℚ) - ((KalmanFilter.iterate (.fin 0) 1).x).toRat|) := by
  rw [iterate_fin 0 2, iterate_fin 0 1]
  simp [PF.toRat, estSeq_zero]

/-- Claim C4 (amended): under repeated updates with a constant measurement m
on a freshly initialized filter, the covariance is monotonically
non-increasing but stays above 1/400 forever (so it approaches the positive
fixed point of the covariance recurrence, not 0), the estimate stays finite,
and the absolute error |m - estimate| strictly decreases whenever the current
estimate differs from m (for m = 0 it is constantly 0). -/
theorem kalman_constant_measurement (m : ℚ) (n : ℕ) :
    ((KalmanFilter.iterate (.fin m) (n + 1)).P).toRat
        ≤ ((KalmanFilter.iterate (.fin m) n).P).toRat
    ∧ 1/400 < ((KalmanFilter.iterate (.fin m) n).P).toRat
    ∧ (KalmanFilter.iterate (.fin m) n).x ≠ PF.nan
    ∧ ((KalmanFilter.iterate (.fin m) n).x ≠ PF.fin m →
        |m - ((KalmanFilter.iterate (.fin m) (n + 1)).x).toRat|
          < |m - ((KalmanFilter.iterate (.fin m) n).x).toRat|) := by
  rw [iterate_fin m (n + 1), iterate_fin m n]
  refine ⟨covSeq_antitone n, covSeq_lower_bound n, by simp, ?_⟩
  intro hx
  have hne : estSeq m n ≠ m := by
    intro h
    exact hx (by rw [h])
  have herr : (0:ℚ) < |m - estSeq m n| := by
    rw [abs_pos, sub_ne_zero]
    exact fun h => hne h.symm
  have hg0 := gainSeq_pos n
  have hg1 := gainSeq_lt_one n
  show |m - estSeq m (n + 1)| < |m - estSeq m n|
  rw [err_step m n, abs_mul, abs_of_nonneg (by linarith : (0:ℚ) ≤ 1 - gainSeq n)]
  calc |m - estSeq m n| * (1 - gainSeq n) < |m - estSeq m n| * 1 := by
        exact mul_lt_mul_of_pos_left (by linarith) herr
    _ = |m - estSeq m n| := mul_one _

/-- Witness for C4 (amended) at m = 1, n = 0. -/
theorem kalman_constant_measurement_spot :
    ((KalmanFilter.iterate (.fin 1) 1).P).toRat ≤ ((KalmanFilter.iterate (.fin 1) 0).P).toRat
    ∧ 1/400 < ((KalmanFilter.iterate (.fin 1) 0).P).toRat
    ∧ (KalmanFilter.iterate (.fin 1) 0).x ≠ PF.nan
    ∧ |(1:ℚ) - ((KalmanFilter.iterate (.fin 1) 1).x).toRat|
        < |(1:ℚ) - ((KalmanFilter.iterate (.fin 1) 0).x).toRat| :=
  ⟨(kalman_constant_measurement 1 0).1, (kalman_constant_measurement 1 0).2.1,
   (kalman_constant_measurement 1 0).2.2.1,
   (kalman_constant_measurement 1 0).2.2.2 (by decide)⟩

/-! ### Claim C6 -/

/-- Claim C6: the filter covariance is strictly positive initially and stays
strictly positive after every update, for every sequence of measurements
(even non-finite ones: the covariance recurrence never touches the
measurement). -/
theorem kalman_covariance_positive (ms : List PF) :
    (KalmanFilter.init.runUpdates ms).P.isPos = true := by
  obtain ⟨p, hp, h0⟩ := runUpdates_good ms KalmanFilter.init rfl rfl ⟨1, rfl, one_pos⟩
  rw [hp]
  simpa [PF.isPos] using h0

/-! ### Claim C3 -/

/-- Claim C3 is refuted: with zero filtered acceleration but nonzero
velocity, the Euler step still moves the position by velocity * dt. -/
theorem advance_zero_accel_moves_position :
    advance (.fin 0, .fin 0) (.fin 1, .fin 0) (.fin 0, .fin 0) (.fin (1/20))
      ≠ ((.fin 0, .fin 0), (.fin 1, .fin 0)) := by
  intro h
  simp [advance, PF.add, PF.mul] at h

/-- Claim C3 (amended): with filtered acceleration ax = ay = 0,
Integrator.advance leaves the velocity unchanged, and the position advances
by exactly velocity * dt (so it is unchanged only when velocity * dt is
zero on both axes). -/
theorem advance_zero_accel (x y vx vy d : ℚ) :
    advance (.fin x, .fin y) (.fin vx, .fin vy) (.fin 0, .fin 0) (.fin d)
      = ((.fin (x + vx * d), .fin (y + vy * d)), (.fin vx, .fin vy)) := by
  simp [advance, PF.add, PF.mul]

/-! ### Claim C7 -/

theorem classify_accel_iff (ax ay az : ℝ) :
    classify ax ay az = Phase.accelerating
      ↔ 1.5 < Real.sqrt (ax ^ 2 + ay ^ 2 + az ^ 2) := by
  by_cases h1 : 1.5 < Real.sqrt (ax ^ 2 + ay ^ 2 + az ^ 2)
  · simp [classify, h1]
  · by_cases h2 : Real.sqrt (ax ^ 2 + ay ^ 2 + az ^ 2) < 0.5 <;> simp [classify, h1, h2]

theorem classify_braking_iff (ax ay az : ℝ) :
    classify ax ay az = Phase.braking
      ↔ Real.sqrt (ax ^ 2 + ay ^ 2 + az ^ 2) < 0.5 := by
  by_cases h1 : 1.5 < Real.sqrt (ax ^ 2 + ay ^ 2 + az ^ 2)
  · have h2 : ¬ Real.sqrt (ax ^ 2 + ay ^ 2 + az ^ 2) < 0.5 := by linarith
    simp [classify, h1, h2]
  · by_cases h2 : Real.sqrt (ax ^ 2 + ay ^ 2 + az ^ 2) < 0.5 <;> simp [classify, h1, h2]

theorem classify_stable_iff (ax ay az : ℝ) :
    classify ax ay az = Phase.stable
      ↔ (Real.sqrt (ax ^ 2 + ay ^ 2 + az ^ 2) ≤ 1.5
          ∧ 0.5 ≤ Real.sqrt (ax ^ 2 + ay ^ 2 + az ^ 2)) := by
  by_cases h1 : 1.5 < Real.sqrt (ax ^ 2 + ay ^ 2 + az ^ 2)
  · have hn : ¬ (Real.sqrt (ax ^ 2 + ay ^ 2 + az ^ 2) ≤ 1.5
        ∧ 0.5 ≤ Real.sqrt (ax ^ 2 + ay ^ 2 + az ^ 2)) := fun h => absurd h1 (not_lt.mpr h.1)
    simp [classify, h1, hn]
  · by_cases h2 : Real.sqrt (ax ^ 2 + ay ^ 2 + az ^ 2) < 0.5
    · have hn : ¬ (Real.sqrt (ax ^ 2 + ay ^ 2 + az ^ 2) ≤ 1.5
          ∧ 0.5 ≤ Real.sqrt (ax ^ 2 + ay ^ 2 + az ^ 2)) := fun h => absurd h2 (not_lt.mpr h.2)
      simp [classify, h1, h2, hn]
    · have hp : Real.sqrt (ax ^ 2 + ay ^ 2 + az ^ 2) ≤ 1.5
          ∧ 0.5 ≤ Real.sqrt (ax ^ 2 + ay ^ 2 + az ^ 2) := ⟨not_lt.mp h1, not_lt.mp h2⟩
      simp [classify, h1, h2, hp]

theorem sqrt_axis (q : ℝ) (h : 0 ≤ q) : Real.sqrt (q ^ 2 + 0 ^ 2 + 0 ^ 2) = q := by
  rw [show q ^ 2 + 0 ^ 2 + 0 ^ 2 = q ^ 2 by ring, Real.sqrt_sq h]

/-- Claim C7: classification over magnitude = sqrt(ax^2+ay^2+az^2) is
Accelerating iff magnitude > 1.5, Braking iff magnitude < 0.5, Stable
otherwise; both boundary magnitudes classify as Stable, any positive
excursion above 1.5 is Accelerating, and any positive drop below 0.5
(down to 0) is Braking. -/
theorem phase_classification :
    (∀ ax ay az : ℝ,
        (classify ax ay az = Phase.accelerating
          ↔ 1.5 < Real.sqrt (ax ^ 2 + ay ^ 2 + az ^ 2))
        ∧ (classify ax ay az = Phase.braking
          ↔ Real.sqrt (ax ^ 2 + ay ^ 2 + az ^ 2) < 0.5)
        ∧ (classify ax ay az = Phase.stable
          ↔ (Real.sqrt (ax ^ 2 + ay ^ 2 + az ^ 2) ≤ 1.5
              ∧ 0.5 ≤ Real.sqrt (ax ^ 2 + ay ^ 2 + az ^ 2))))
    ∧ classify 1.5 0 0 = Phase.stable
    ∧ classify 0.5 0 0 = Phase.stable
    ∧ (∀ ε : ℝ, 0 < ε → classify (1.5 + ε) 0 0 = Phase.accelerating)
    ∧ (∀ ε : ℝ, 0 < ε → ε ≤ 1/2 → classify (0.5 - ε) 0 0 = Phase.braking) := by
  refine ⟨fun ax ay az => ⟨classify_accel_iff ax ay az, classify_braking_iff ax ay az,
      classify_stable_iff ax ay az⟩, ?_, ?_, ?_, ?_⟩
  · refine (classify_stable_iff 1.5 0 0).mpr ?_
    rw [sqrt_axis 1.5 (by norm_num)]
    norm_num
  · refine (classify_stable_iff 0.5 0 0).mpr ?_
    rw [sqrt_axis 0.5 (by norm_num)]
    norm_num
  · intro ε hε
    refine (classify_accel_iff (1.5 + ε) 0 0).mpr ?_
    rw [sqrt_axis (1.5 + ε) (by linarith)]
    linarith
  · intro ε hε hε2
    refine (classify_braking_iff (0.5 - ε) 0 0).mpr ?_
    rw [sqrt_axis (0.5 - ε) (by linarith)]
    linarith

/-- Witness for C7 at ε = 1/4. -/
theorem phase_classification_spot :
    classify (1.5 + (1/4 : ℝ)) 0 0 = Phase.accelerating
    ∧ classify (0.5 - (1/4 : ℝ)) 0 0 = Phase.braking :=
  ⟨phase_classification.2.2.2.1 (1/4) (by norm_num),
   phase_classification.2.2.2.2 (1/4) (by norm_num) (by norm_num)⟩

/-! ### Claim C2 -/

/-- Claim C2 is refuted: in a running state whose stored last_ts is 1000, a
sample that carries no timestamp is read as ts = 0.0; the claim predicts the
fixed fallback dt = 0.05, but the code computes
dt = max(0.01, (0 - 1000)/1000) = 0.01, as witnessed by the resulting
velocity increment (filter output 2002/1011 times dt). -/
theorem dt_missing_ts_not_fallback :
    computeDt (some (.fin 1000)) (.fin 0) = .fin (1/100)
    ∧ ((ingest cState (.sample ⟨some (.num 2), none, none, none⟩)).1.velocity.1
        = PF.fin (2002/1011 * (1/100)))
    ∧ ((ingest cState (.sample ⟨some (.num 2), none, none, none⟩)).1.velocity.1
        ≠ PF.fin (2002/1011 * (1/20))) := by
  refine ⟨?_, ?_, ?_⟩
  · norm_num [computeDt, PF.truthy, PF.sub, PF.div, PF.pymax, PF.lt]
  · norm_num [ingest, cState, parseField, computeDt, advance, dequeAppend,
      KalmanFilter.update, KalmanFilter.init,
      PF.truthy, PF.sub, PF.div, PF.pymax, PF.lt, PF.add, PF.mul]
  · norm_num [ingest, cState, parseField, computeDt, advance, dequeAppend,
      KalmanFilter.update, KalmanFilter.init,
      PF.truthy, PF.sub, PF.div, PF.pymax, PF.lt, PF.add, PF.mul]

/-- Claim C2 (amended): dt = max(0.01, (ts - last_ts)/1000) only when the
stored last_ts is truthy (present and nonzero); when last_ts is None — the
first sample — or when the stored last_ts is 0.0, dt is the fixed fallback
0.05 (a sample without ts is read as ts = 0.0 and fed into the same rule);
a non-increasing ts against a truthy last_ts yields dt = 0.01; and after
every successful ingest the stored last_ts becomes the parsed ts. -/
theorem dt_policy :
    (∀ lastq tsq : ℚ, lastq ≠ 0 →
        computeDt (some (.fin lastq)) (.fin tsq)
          = .fin (max (1/100) ((tsq - lastq) / 1000)))
    ∧ (∀ tsq : ℚ, computeDt none (.fin tsq) = .fin (1/20))
    ∧ (∀ tsq : ℚ, computeDt (some (.fin 0)) (.fin tsq) = .fin (1/20))
    ∧ (∀ lastq tsq : ℚ, lastq ≠ 0 → tsq ≤ lastq →
        computeDt (some (.fin lastq)) (.fin tsq) = .fin (1/100))
    ∧ (∀ (s : AppState) (a b c : Option ℚ) (tq : ℚ),
        (ingest s (.sample (numSample a b c (some tq)))).1.last_ts = some (.fin tq)) := by
  have key : ∀ lastq tsq : ℚ, lastq ≠ 0 →
      computeDt (some (.fin lastq)) (.fin tsq)
        = .fin (max (1/100) ((tsq - lastq) / 1000)) := by
    intro lastq tsq h
    simp [computeDt, PF.truthy, PF.sub, PF.div, pymax_fin, h]
  refine ⟨key, fun tsq => rfl, fun tsq => by norm_num [computeDt, PF.truthy], ?_, ?_⟩
  · intro lastq tsq h hle
    rw [key lastq tsq h, max_eq_left (by linarith : (tsq - lastq) / 1000 ≤ 1/100)]
  · intro s a b c tq
    cases a <;> cases b <;> cases c <;> rfl

/-- Witness for C2 (amended) at last_ts = 1000 with ts = 2000 (increasing)
and ts = 500 (non-increasing). -/
theorem dt_policy_spot :
    computeDt (some (.fin 1000)) (.fin 2000) = .fin (max (1/100) ((2000 - 1000) / 1000))
    ∧ computeDt (some (.fin 1000)) (.fin 500) = .fin (1/100) :=
  ⟨dt_policy.1 1000 2000 (by norm_num), dt_policy.2.2.2.1 1000 500 (by norm_num) (by norm_num)⟩

/-! ### Claim C10 -/

/-- Claim C10: an ingested sample with ts = 0 — or with the ts field absent,
which is read as 0.0 — stores last_ts = 0.0, and because the dt computation
tests last_ts by Python truthiness, the following sample gets the fixed
fallback dt = 0.05 whatever its own timestamp is. -/
theorem ts_zero_fallback :
    (∀ (s : AppState) (a b c : Option ℚ),
        ((ingest s (.sample (numSample a b c (some 0)))).1.last_ts = some (.fin 0))
        ∧ ((ingest s (.sample (numSample a b c none))).1.last_ts = some (.fin 0)))
    ∧ (∀ t : PF, computeDt (some (.fin 0)) t = .fin (1/20)) := by
  constructor
  · intro s a b c
    constructor <;> (cases a <;> cases b <;> cases c <;> rfl)
  · intro t
    norm_num [computeDt, PF.truthy]

/-! ### Claim C8 -/

theorem dequeAppend_length_le (l : List (PF × PF)) (p : PF × PF) (h : l.length ≤ 1000) :
    (dequeAppend l p).length ≤ 1000 := by
  rw [dequeAppend]
  split_ifs with hl
  · simp only [List.length_append, List.length_singleton]
    omega
  · simp only [List.length_append, List.length_singleton, List.length_tail]
    omega

theorem foldl_dequeAppend (ps : List (PF × PF)) :
    ∀ l : List (PF × PF), l.length ≤ 1000 →
      List.foldl dequeAppend l ps = (l ++ ps).drop (l.length + ps.length - 1000) := by
  induction ps with
  | nil =>
      intro l h
      simp [Nat.sub_eq_zero_of_le h]
  | cons p ps ih =>
      intro l h
      rw [List.foldl_cons]
      by_cases hl : l.length < 1000
      · have hstep : dequeAppend l p = l ++ [p] := by rw [dequeAppend, if_pos hl]
        rw [hstep, ih (l ++ [p]) (by simp only [List.length_append, List.length_singleton]; omega)]
        rw [List.append_assoc, List.singleton_append]
        have hidx : (l ++ [p]).length + ps.length - 1000
            = l.length + (p :: ps).length - 1000 := by
          simp only [List.length_append, List.length_singleton, List.length_cons,
            List.length_nil]
          omega
        rw [hidx]
      · have hl1000 : l.length = 1000 := le_antisymm h (not_lt.mp hl)
        have hstep : dequeAppend l p = l.tail ++ [p] := by rw [dequeAppend, if_neg hl]
        rw [hstep, ih (l.tail ++ [p])
            (by simp only [List.length_append, List.length_singleton, List.length_tail]; omega)]
        cases l with
        | nil => simp at hl1000
        | cons a t =>
            have ht : t.length = 999 := by simpa using hl1000
            simp only [List.tail_cons]
            have hidx1 : (t ++ [p]).length + ps.length - 1000 = ps.length := by
              simp only [List.length_append, List.length_singleton, ht]
              omega
            have hidx2 : (a :: t).length + (p :: ps).length - 1000 = ps.length + 1 := by
              simp only [List.length_cons, ht]
              omega
            rw [hidx1, hidx2, List.append_assoc, List.singleton_append, List.cons_append,
              List.drop_succ_cons]

theorem foldl_applyOp_length (ops : List LogOp) :
    ∀ l : List (PF × PF), l.length ≤ 1000 → (List.foldl applyOp l ops).length ≤ 1000 := by
  induction ops with
  | nil => intro l h; simpa using h
  | cons op ops ih =>
      intro l h
      rw [List.foldl_cons]
      cases op with
      | append p => exact ih _ (dequeAppend_length_le l p h)
      | clear => exact ih _ (by simp [applyOp])

/-- Claim C8: the trajectory log never exceeds 1000 entries under any
sequence of appends and clears; appending evicts exactly the oldest entries
(the result of a fold of appends is the suffix of the appended list); in
particular appending 1005 points to an empty log leaves exactly the last
1000 in original order. -/
theorem trajectory_log_bound :
    (∀ ops : List LogOp, (applyOps ops).length ≤ 1000)
    ∧ (∀ ps : List (PF × PF), ps.length = 1005 →
        List.foldl dequeAppend [] ps = ps.drop 5) := by
  constructor
  · intro ops
    exact foldl_applyOp_length ops [] (by simp)
  · intro ps h
    have hmain := foldl_dequeAppend ps [] (by simp)
    rw [hmain]
    simp [h]

/-- Witness for C8 on the concrete list of 1005 points (i, 0). -/
theorem trajectory_log_bound_spot :
    List.foldl dequeAppend [] ((List.range 1005).map (fun (i : ℕ) => (PF.fin (i : ℚ), PF.fin 0)))
      = ((List.range 1005).map (fun (i : ℕ) => (PF.fin (i : ℚ), PF.fin 0))).drop 5 := by
  have h : ((List.range 1005).map (fun (i : ℕ) => (PF.fin (i : ℚ), PF.fin 0))).length = 1005 := by
    rw [List.length_map, List.length_range]
  exact trajectory_log_bound.2 _ h

/-! ### Claim C5 -/

/-- Claim C5: pressing Reset from any session state yields the Idle state
with empty trajectory, zero velocity, zero last filtered acceleration, and
cleared last timestamp, and never warns; the per-run Kalman filters used by
any subsequent ingest are the defaults (estimate 0, covariance 1), since the
script rebuilds them on every run; ingesting any sample while still Idle
changes nothing, and after Start the same sample deposits exactly one
trajectory point. -/
theorem reset_behavior :
    (∀ (s : AppState) (sensor : Option RawInput),
        scriptRun s ⟨false, false, true⟩ sensor = (resetState, false))
    ∧ (∀ sensor : Option RawInput,
        scriptRun resetState ⟨false, false, false⟩ sensor = (resetState, false))
    ∧ (∀ a b c t : Option ℚ,
        (scriptRun resetState ⟨true, false, false⟩
            (some (.sample (numSample a b c t)))).1.positions.length = 1)
    ∧ KalmanFilter.init.x = PF.fin 0 ∧ KalmanFilter.init.P = PF.fin 1 := by
  refine ⟨?_, ?_, ?_, rfl, rfl⟩
  · intro s sensor
    cases sensor <;> rfl
  · intro sensor
    cases sensor <;> rfl
  · intro a b c t
    cases a <;> cases b <;> cases c <;> cases t <;> rfl

/-! ### Claim C1 -/

/-- Claim C1 is refuted: a running tracker fed a sample whose acceleration
fields are all missing (a sample the claim calls malformed) does not drop
it: no warning is raised, a trajectory point is appended (0 points before,
1 after), and last_ts is overwritten. -/
theorem malformed_sample_ingested :
    ((scriptRun startedState ⟨false, false, false⟩
        (some (.sample ⟨none, none, none, some (.num 1000)⟩))).2 = false)
    ∧ ((scriptRun startedState ⟨false, false, false⟩
        (some (.sample ⟨none, none, none, some (.num 1000)⟩))).1.positions.length = 1)
    ∧ startedState.positions.length = 0
    ∧ ((scriptRun startedState ⟨false, false, false⟩
        (some (.sample ⟨none, none, none, some (.num 1000)⟩))).1.last_ts = some (.fin 1000))
    ∧ startedState.last_ts = none :=
  ⟨rfl, rfl, rfl, rfl, rfl⟩

theorem ingest_fail (s : AppState) (sm : RawSample)
    (h : parseField sm.accX = none ∨ parseField sm.accY = none
        ∨ parseField sm.accZ = none ∨ parseField sm.ts = none) :
    ingest s (.sample sm) = (s, true) := by
  rcases sm with ⟨a, b, c, t⟩
  rcases h1 : parseField a with _ | ax <;>
  rcases h2 : parseField b with _ | ay <;>
  rcases h3 : parseField c with _ | az <;>
  rcases h4 : parseField t with _ | ts <;>
  simp_all [ingest]

theorem parseField_fill (o : Option RawVal) :
    parseField (some (o.getD (.num 0))) = parseField o := by
  cases o <;> rfl

/-- Claim C1 (amended): the ingestion block warns and leaves the session
state untouched exactly when an exception occurs — unparseable JSON or a
present non-numeric field (float() raises).  Missing acceleration/ts fields
are not dropped: they default to 0.0 and the sample is ingested.  Non-finite
values are not rejected either: a NaN acceleration component is ingested
without warning, appends a trajectory point, and propagates NaN into the
velocity state. -/
theorem ingest_error_policy :
    (∀ s : AppState, ingest s .badJson = (s, true))
    ∧ (∀ (s : AppState) (sm : RawSample),
        (sm.accX = some .notNum ∨ sm.accY = some .notNum
          ∨ sm.accZ = some .notNum ∨ sm.ts = some .notNum) →
        ingest s (.sample sm) = (s, true))
    ∧ (∀ (s : AppState) (sm : RawSample),
        ingest s (.sample sm)
          = ingest s (.sample ⟨some (sm.accX.getD (.num 0)), some (sm.accY.getD (.num 0)),
              some (sm.accZ.getD (.num 0)), some (sm.ts.getD (.num 0))⟩))
    ∧ (((ingest startedState
          (.sample ⟨some .nanLit, some (.num 0), some (.num 0), some (.num 500)⟩)).2 = false)
        ∧ ((ingest startedState
          (.sample ⟨some .nanLit, some (.num 0), some (.num 0), some (.num 500)⟩)).1.positions.length = 1)
        ∧ ((ingest startedState
          (.sample ⟨some .nanLit, some (.num 0), some (.num 0), some (.num 500)⟩)).1.velocity.1 = PF.nan)) := by
  refine ⟨fun s => rfl, ?_, ?_, rfl, rfl, rfl⟩
  · intro s sm h
    apply ingest_fail
    rcases h with h | h | h | h
    · exact Or.inl (by rw [h]; rfl)
    · exact Or.inr (Or.inl (by rw [h]; rfl))
    · exact Or.inr (Or.inr (Or.inl (by rw [h]; rfl)))
    · exact Or.inr (Or.inr (Or.inr (by rw [h]; rfl)))
  · intro s sm
    rcases sm with ⟨a, b, c, t⟩
    rcases a with _ | qa <;> rcases b with _ | qb <;> rcases c with _ | qc <;>
      rcases t with _ | qt <;> rfl

/-- Witness for C1 (amended): a present non-numeric x field warns and leaves
the state unchanged. -/
theorem ingest_error_policy_spot :
    ingest startedState (.sample ⟨some .notNum, some (.num 1), none, none⟩)
      = (startedState, true) :=
  ingest_error_policy.2.1 startedState ⟨some .notNum, some (.num 1), none, none⟩ (Or.inl rfl)

/-! ### Claim C9 -/

theorem scenario_step1 :
    (scriptRun startedState ⟨false, false, false⟩
        (some (.sample (numSample (some 2) (some 0) (some 0) (some 0))))).1
      = ⟨true, [(.fin (1001/202200), .fin 0)], (.fin (1001/10110), .fin 0),
          (.fin (2002/1011), .fin 0, .fin 0), some (.fin 0)⟩ := by
  norm_num [scriptRun, ingest, numSample, parseField, computeDt, advance, dequeAppend,
    KalmanFilter.update, KalmanFilter.init, startedState,
    PF.add, PF.sub, PF.mul, PF.div, PF.truthy, PF.lt, PF.pymax,
    List.getLast?, Option.getD]

theorem scenario_step2 :
    (scriptRun ⟨true, [(.fin (1001/202200), .fin 0)], (.fin (1001/10110), .fin 0),
          (.fin (2002/1011), .fin 0, .fin 0), some (.fin 0)⟩ ⟨false, false, false⟩
        (some (.sample (numSample (some 2) (some 0) (some 0) (some 50))))).1
      = ⟨true, [(.fin (1001/202200), .fin 0), (.fin (1001/67400), .fin 0)],
          (.fin (1001/5055), .fin 0), (.fin (2002/1011), .fin 0, .fin 0),
          some (.fin 50)⟩ := by
  norm_num [scriptRun, ingest, numSample, parseField, computeDt, advance, dequeAppend,
    KalmanFilter.update, KalmanFilter.init,
    PF.add, PF.sub, PF.mul, PF.div, PF.truthy, PF.lt, PF.pymax,
    List.getLast?, Option.getD]

theorem scenario_step3 :
    (scriptRun ⟨true, [(.fin (1001/202200), .fin 0), (.fin (1001/67400), .fin 0)],
          (.fin (1001/5055), .fin 0), (.fin (2002/1011), .fin 0, .fin 0), some (.fin 50)⟩
        ⟨false, false, false⟩
        (some (.sample (numSample (some 2) (some 0) (some 0) (some 100))))).1
      = ⟨true, [(.fin (1001/202200), .fin 0), (.fin (1001/67400), .fin 0),
          (.fin (1001/33700), .fin 0)],
          (.fin (1001/3370), .fin 0), (.fin (2002/1011), .fin 0, .fin 0),
          some (.fin 100)⟩ := by
  norm_num [scriptRun, ingest, numSample, parseField, computeDt, advance, dequeAppend,
    KalmanFilter.update, KalmanFilter.init,
    PF.add, PF.sub, PF.mul, PF.div, PF.truthy, PF.lt, PF.pymax,
    List.getLast?, Option.getD]

/-- Claim C9: starting a fresh tracker and ingesting the three samples
ax=2, ay=0, az=0 at ts = 0, 50, 100 (one per script run, each step using
dt = 0.05) yields exactly 3 trajectory points with strictly increasing x,
y identically 0, and a displayed phase of Accelerating (each run's fresh
filter outputs 2002/1011, whose magnitude exceeds 1.5). -/
theorem end_to_end_scenario :
    endState.positions.length = 3
    ∧ endState.positions.Chain' (fun p q => PF.lt p.1 q.1 = true)
    ∧ endState.positions.map Prod.snd = [PF.fin 0, PF.fin 0, PF.fin 0]
    ∧ currentPhase endState = Phase.accelerating := by
  have hend : endState = ⟨true, [(.fin (1001/202200), .fin 0), (.fin (1001/67400), .fin 0),
      (.fin (1001/33700), .fin 0)], (.fin (1001/3370), .fin 0),
      (.fin (2002/1011), .fin 0, .fin 0), some (.fin 100)⟩ := by
    simp only [endState]
    rw [show (scriptRun initialState ⟨true, false, false⟩ none).1 = startedState from rfl]
    rw [scenario_step1, scenario_step2, scenario_step3]
  refine ⟨by rw [hend]; rfl, ?_, by rw [hend]; rfl, ?_⟩
  · rw [hend]
    norm_num [List.chain'_cons, List.chain'_singleton, PF.lt]
  · rw [hend]
    show classify ((2002/1011 : ℚ) : ℝ) ((0 : ℚ) : ℝ) ((0 : ℚ) : ℝ) = Phase.accelerating
    have h0 : ((0 : ℚ) : ℝ) = 0 := by norm_num
    have ha : ((2002/1011 : ℚ) : ℝ) = 2002/1011 := by norm_num
    rw [h0, ha]
    refine (classify_accel_iff (2002/1011 : ℝ) 0 0).mpr ?_
    rw [sqrt_axis (2002/1011 : ℝ) (by norm_num)]
    norm_num
